import Mathlib

/-!
Shallow embedding of `src/ipa/ipu3/aiq.cpp` (libcamera's Intel IA Imaging
library C++ wrapper) for checking the specification of the AIQ engine
session, the calibration blob loader and the parameter encoding step.

Machine integers are modelled by `Int`/`Nat`; byte buffers by `List Int`;
nullable pointers by `Option`; the opaque third-party IA engine by a
structure of response functions; external calls made by the wrapper are
recorded in explicit trace structures so that theorems can speak about
which entry points were invoked and with which arguments.
-/

namespace Aiq

/-- The errno value `ENOENT` (no such file or directory). -/
def ENOENT : Int := 2

/-- The errno value `EINVAL` (invalid argument). -/
def EINVAL : Int := 22

/-- The errno value `ENODATA` (no data available). -/
def ENODATA : Int := 61

/-- Model of a `libcamera::File` as observed by `AIQBinaryData::load`:
whether the file exists, whether opening read-only succeeds, the result of
`File::size()` (negative encodes failure to determine the size), and the
bytes delivered by `File::read` into the resized buffer. -/
structure File where
  fileExists : Bool
  openOk : Bool
  size : Int
  readBytes : List Int
deriving DecidableEq, Repr

/-- Model of the foreign `ia_binary_data` struct: a data pointer that is
either null or points at the owning `AIQBinaryData`'s vector, plus a size.
The pointer is abstracted to the flag `dataIsNull`. -/
structure IaBinaryData where
  dataIsNull : Bool
  size : Nat
deriving DecidableEq, Repr

/-- Model of the `AIQBinaryData` wrapper: the exposed `ia_binary_data`
view `iaBinaryData_` plus the owned byte vector `data_`. -/
structure AIQBinaryData where
  iaBinaryData_ : IaBinaryData
  data_ : List Int
deriving DecidableEq, Repr

/-- The `AIQBinaryData` constructor: sets `iaBinaryData_.data = nullptr`
and `iaBinaryData_.size = 0`; the vector starts empty. -/
def AIQBinaryData.new : AIQBinaryData := ⟨⟨true, 0⟩, []⟩

/-- `std::vector::resize`: truncate to `n` elements or pad with zeros. -/
def listResize (l : List Int) (n : Nat) : List Int :=
  l.take n ++ List.replicate (n - l.length) 0

/-- `File::read(buf)`: the delivered bytes overwrite the front of the
buffer, the remainder of the buffer is left as it was. -/
def writeInto (buf src : List Int) : List Int :=
  src.take buf.length ++ buf.drop (min src.length buf.length)

/-- `AIQBinaryData::load`: missing file yields `-ENOENT`, failure to open
yields `-EINVAL`, an undeterminable size yields `-ENODATA`; then the
vector is resized to the file size and read; a short read yields
`-EINVAL`; only on full success are the view's pointer and size set. -/
def AIQBinaryData.load (b : AIQBinaryData) (f : File) : Int × AIQBinaryData :=
  if f.fileExists = false then (-ENOENT, b)
  else if f.openOk = false then (-EINVAL, b)
  else if f.size < 0 then (-ENODATA, b)
  else
    let fileSize : Nat := f.size.toNat
    let resized : List Int := listResize b.data_ fileSize
    let bytesRead : Nat := f.readBytes.length
    let afterRead : List Int := writeInto resized f.readBytes
    if bytesRead ≠ fileSize then
      (-EINVAL, { b with data_ := afterRead })
    else
      (0, { iaBinaryData_ := ⟨false, fileSize⟩, data_ := afterRead })

/-- A read-only snapshot of what a consumer of `AIQBinaryData::data()`
can observe through the returned `ia_binary_data *`: the null flag, the
recorded size, and the bytes reachable through the pointer (the owned
vector when the pointer is set, nothing when it is null). -/
structure BinaryDataView where
  isNull : Bool
  size : Nat
  bytes : List Int
deriving DecidableEq, Repr

/-- The observable view through `AIQBinaryData::data()`. -/
def AIQBinaryData.dataView (b : AIQBinaryData) : BinaryDataView :=
  ⟨b.iaBinaryData_.dataIsNull, b.iaBinaryData_.size,
    if b.iaBinaryData_.dataIsNull then [] else b.data_⟩

/-- The view exposed by a default-constructed `AIQBinaryData`: a null
pointer and size zero. -/
def nullView : BinaryDataView := AIQBinaryData.new.dataView

/-- Model of the foreign `ia_aiq_statistics_input_params` struct. Its
field layout is engine-defined and opaque to the wrapper; it is modelled
by a single opaque word. -/
structure IaAiqStatisticsInputParams where
  raw : Int
deriving DecidableEq, Repr

/-- The value-initialized (`= {}`) statistics input struct built by
`AIQ::setStatistics`. -/
def IaAiqStatisticsInputParams.zeroed : IaAiqStatisticsInputParams := ⟨0⟩

/-- Model of the hardware statistics buffer `ipu3_uapi_stats_3a`
delivered by the ISP; its layout is opaque to this wrapper. -/
structure Ipu3UapiStats3a where
  raw : List Int
deriving DecidableEq, Repr

/-- Model of the ISP parameter buffer `ipu3_uapi_params`. -/
structure Ipu3UapiParams where
  raw : List Int
deriving DecidableEq, Repr

/-- Model of the engine tuning-decision structure `aic_config`. -/
structure AicConfig where
  raw : List Int
deriving DecidableEq, Repr

/-- Black-box model of the opaque IA engine: the behavior of
`ia_aiq_init` (three `ia_binary_data` views, the statistics geometry,
the `ia_cmc_t *` and `ia_mkn *` context pointers; returns a handle or
null) and of `ia_aiq_statistics_set` (handle and statistics input;
returns an `ia_err` code, zero meaning success). `ia_aiq_deinit` has no
observable return and needs no field. -/
structure Engine where
  ia_aiq_init : BinaryDataView → BinaryDataView → BinaryDataView →
    Nat → Nat → Nat → Option Unit → Option Unit → Option Nat
  ia_aiq_statistics_set : Option Nat → IaAiqStatisticsInputParams → Int

/-- Model of the `AIQ` wrapper object: its only data member is the
engine handle `aiq_`, null when no engine instance is held.

Modelled from the spec: the declaration of `aiq_` lives in `aiq.h`,
which is not part of the sources; per the spec's data model the engine
handle is non-null only between a successful `init` and deinit, so the
constructed object starts with a null handle. -/
structure AIQ where
  aiq_ : Option Nat
deriving DecidableEq, Repr

/-- The `AIQ` constructor: only logs; the handle starts null (see the
modelling note on `AIQ`). -/
def AIQ.new : AIQ := ⟨none⟩

/-- The fixed calibration file path hard-coded in `AIQ::init`. -/
def aiqbPath : String := "/etc/camera/ipu3/00imx258.aiqb"

/-- Record of the single `ia_aiq_init` call made by `AIQ::init`: the
three blob views and the remaining arguments as passed. -/
structure EngineInitCall where
  aiqbData : BinaryDataView
  nvmData : BinaryDataView
  aiqdData : BinaryDataView
  statsMaxWidth : Nat
  statsMaxHeight : Nat
  maxNumStatsIn : Nat
  iaCmc : Option Unit
  iaMkn : Option Unit
deriving DecidableEq, Repr

/-- Trace of the external calls made during one execution of
`AIQ::init`: the file paths on which `AIQBinaryData::load` was invoked
(in order), the return codes of those loads, and the arguments of the
engine creation call. -/
structure InitTrace where
  loadPaths : List String
  loadRets : List Int
  engineCall : EngineInitCall
deriving DecidableEq, Repr

/-- `AIQ::init`: default-constructs the three blobs `aiqb`, `nvm` and
`aiqd`, attempts to load only `aiqb` from the fixed path (a failure is
logged — "Not quitting" — and ignored), then calls `ia_aiq_init` with
the three views, width 1920, height 1080, 4 concurrent statistics, and
null `ia_cmc_t *` / `ia_mkn *` pointers. A null engine handle yields
`-ENODATA`; otherwise zero. The filesystem is passed as a map from
paths to `File` models. -/
def AIQ.init (eng : Engine) (a : AIQ) (fs : String → File) :
    Int × AIQ × InitTrace :=
  let aiqb0 := AIQBinaryData.new
  let nvm := AIQBinaryData.new
  let aiqd := AIQBinaryData.new
  let r := aiqb0.load (fs aiqbPath)
  let ret := r.1
  let aiqb := r.2
  let call : EngineInitCall :=
    ⟨aiqb.dataView, nvm.dataView, aiqd.dataView, 1920, 1080, 4, none, none⟩
  let h := eng.ia_aiq_init call.aiqbData call.nvmData call.aiqdData
    call.statsMaxWidth call.statsMaxHeight call.maxNumStatsIn
    call.iaCmc call.iaMkn
  let a' : AIQ := ⟨h⟩
  let tr : InitTrace := ⟨[aiqbPath], [ret], call⟩
  if h = none then (-ENODATA, a', tr) else (0, a', tr)

/-- `AIQ::configure`: logs and returns zero. -/
def AIQ.configure (a : AIQ) : Int × AIQ := (0, a)

/-- Record of the `ia_aiq_statistics_set` call made by
`AIQ::setStatistics`: the handle and statistics input passed to the
engine, and the `ia_err` the engine returned. -/
structure StatsSetCall where
  handle : Option Nat
  param : IaAiqStatisticsInputParams
  engErr : Int
deriving DecidableEq, Repr

/-- `AIQ::setStatistics`: ignores `frame` and `stats`, builds a
value-initialized `ia_aiq_statistics_input_params`, and calls
`ia_aiq_statistics_set` with the current handle. A nonzero engine error
is logged ("Not quitting") and discarded; the function returns zero
unconditionally and leaves the wrapper state untouched. -/
def AIQ.setStatistics (eng : Engine) (a : AIQ) (frame : Nat)
    (stats : Ipu3UapiStats3a) : Int × AIQ × StatsSetCall :=
  let statsParam := IaAiqStatisticsInputParams.zeroed
  let err := eng.ia_aiq_statistics_set a.aiq_ statsParam
  (0, a, ⟨a.aiq_, statsParam, err⟩)

/-- `AIQ::run`: declares a local `aic_config` (left unassigned by the
source, so its contents enter as the explicit argument `config`) and
hands it to `ParameterEncoder::encode` together with the caller's
parameter buffer; returns zero. The engine handle and the frame number
are not consulted.

Modelled from the spec: `ParameterEncoder::encode`
(`parameter_encoder.cpp`) is not part of the sources; per the spec it is
a pure, deterministic transform of the tuning-decision structure into
the parameter buffer, so it enters as the function argument `encode`. -/
def AIQ.run (encode : AicConfig → Ipu3UapiParams → Ipu3UapiParams)
    (a : AIQ) (frame : Nat) (config : AicConfig)
    (params : Ipu3UapiParams) : Int × Ipu3UapiParams :=
  (0, encode config params)

/-- Record of the `ia_aiq_deinit` call made by the destructor: the
handle it was passed. -/
structure DeinitCall where
  handle : Option Nat
deriving DecidableEq, Repr

/-- `AIQ::~AIQ`: logs and calls `ia_aiq_deinit(aiq_)` unconditionally,
with whatever handle is currently held (no null check). -/
def AIQ.destruct (a : AIQ) : DeinitCall := ⟨a.aiq_⟩

/-- C1: for every resource name that does not exist,
`AIQBinaryData::load` returns the resource-missing error `-ENOENT`, and
`AIQ::init` nevertheless returns success with a non-null engine handle
(the session is Initialized, not Failed), provided the engine creation
entry point succeeds when given the null/placeholder blob views. -/
theorem c1_missing_calibration_is_nonfatal (b : AIQBinaryData) (f : File)
    (eng : Engine) (a : AIQ) (fs : String → File)
    (hf : f.fileExists = false)
    (hmiss : (fs aiqbPath).fileExists = false)
    (heng : eng.ia_aiq_init nullView nullView nullView 1920 1080 4
      none none ≠ none) :
    (b.load f).1 = -ENOENT ∧
    (AIQ.init eng a fs).1 = 0 ∧
    (AIQ.init eng a fs).2.1.aiq_ ≠ none := by
  rcases Option.ne_none_iff_exists'.mp heng with ⟨k, hk⟩
  simp [nullView, AIQBinaryData.dataView, AIQBinaryData.new] at hk
  refine ⟨?_, ?_⟩
  · simp [AIQBinaryData.load, hf]
  · simp [AIQ.init, AIQBinaryData.load, AIQBinaryData.dataView,
      AIQBinaryData.new, hmiss, hk]

/-- C1 witness: a concrete missing file, an always-succeeding engine. -/
theorem c1_missing_calibration_is_nonfatal_witness :
    (AIQBinaryData.new.load ⟨false, true, 0, []⟩).1 = -ENOENT ∧
    (AIQ.init ⟨fun _ _ _ _ _ _ _ _ => some 1, fun _ _ => 0⟩ AIQ.new
      (fun _ => ⟨false, true, 0, []⟩)).1 = 0 ∧
    (AIQ.init ⟨fun _ _ _ _ _ _ _ _ => some 1, fun _ _ => 0⟩ AIQ.new
      (fun _ => ⟨false, true, 0, []⟩)).2.1.aiq_ ≠ none :=
  c1_missing_calibration_is_nonfatal AIQBinaryData.new ⟨false, true, 0, []⟩
    ⟨fun _ _ _ _ _ _ _ _ => some 1, fun _ _ => 0⟩ AIQ.new
    (fun _ => ⟨false, true, 0, []⟩) rfl rfl (by simp)

/-- C2: whenever the engine creation entry point returns a null handle,
`AIQ::init` returns the failure `-ENODATA` (nonzero) to the caller and
the session holds no engine handle — engine-creation failure is fatal,
unlike calibration-load failure. -/
theorem c2_engine_creation_failure_is_fatal (eng : Engine) (a : AIQ)
    (fs : String → File)
    (heng : ∀ v1 v2 v3 w h n c m, eng.ia_aiq_init v1 v2 v3 w h n c m = none) :
    (AIQ.init eng a fs).1 = -ENODATA ∧
    (AIQ.init eng a fs).1 ≠ 0 ∧
    (AIQ.init eng a fs).2.1.aiq_ = none := by
  refine ⟨?_, ?_, ?_⟩ <;> simp [AIQ.init, heng, ENODATA]

/-- C2 witness: a concrete engine whose creation always fails. -/
theorem c2_engine_creation_failure_is_fatal_witness :
    (AIQ.init ⟨fun _ _ _ _ _ _ _ _ => none, fun _ _ => 0⟩ AIQ.new
      (fun _ => ⟨true, true, 1, [7]⟩)).1 = -ENODATA ∧
    (AIQ.init ⟨fun _ _ _ _ _ _ _ _ => none, fun _ _ => 0⟩ AIQ.new
      (fun _ => ⟨true, true, 1, [7]⟩)).1 ≠ 0 ∧
    (AIQ.init ⟨fun _ _ _ _ _ _ _ _ => none, fun _ _ => 0⟩ AIQ.new
      (fun _ => ⟨true, true, 1, [7]⟩)).2.1.aiq_ = none :=
  c2_engine_creation_failure_is_fatal
    ⟨fun _ _ _ _ _ _ _ _ => none, fun _ _ => 0⟩ AIQ.new
    (fun _ => ⟨true, true, 1, [7]⟩) (fun _ _ _ _ _ _ _ _ => rfl)

/-- C3 counterexample: an unreadable (open-failure) file and a
partial-read file both make `AIQBinaryData::load` return `-EINVAL`, so
the four failure conditions are not pairwise distinguishable by the
returned code, contrary to the claim. -/
theorem c3_error_codes_counterexample :
    (AIQBinaryData.new.load ⟨true, false, 0, []⟩).1 = -EINVAL ∧
    (AIQBinaryData.new.load ⟨true, true, 2, []⟩).1 = -EINVAL ∧
    (AIQBinaryData.new.load ⟨true, false, 0, []⟩).1 =
      (AIQBinaryData.new.load ⟨true, true, 2, []⟩).1 := by
  decide

/-- C3 amended: `load` maps resource-not-found to `-ENOENT`, an open
(permission) failure to `-EINVAL`, an undeterminable size to `-ENODATA`
and a partial read to `-EINVAL`; not-found, open-failure and
indeterminate-size are pairwise distinct, but open-failure and partial
read share the code `-EINVAL`. -/
theorem c3_error_code_mapping (b : AIQBinaryData) (f : File) :
    (b.load f).1 =
      (if f.fileExists = false then -ENOENT
       else if f.openOk = false then -EINVAL
       else if f.size < 0 then -ENODATA
       else if f.readBytes.length ≠ f.size.toNat then -EINVAL
       else 0) ∧
    ((-ENOENT : Int) ≠ -EINVAL ∧ (-ENOENT : Int) ≠ -ENODATA ∧
      (-EINVAL : Int) ≠ -ENODATA) := by
  refine ⟨?_, by decide, by decide, by decide⟩
  simp only [AIQBinaryData.load]
  split_ifs <;> rfl

/-- C4 counterexample: with an engine whose `ia_aiq_statistics_set`
reports the internal error code 1, `AIQ::setStatistics` on an
initialized session still returns 0 (success), not a failure
indication. -/
theorem c4_engine_error_not_propagated_counterexample :
    (AIQ.setStatistics ⟨fun _ _ _ _ _ _ _ _ => none, fun _ _ => 1⟩
      ⟨some 5⟩ 0 ⟨[]⟩).2.2.engErr = 1 ∧
    (AIQ.setStatistics ⟨fun _ _ _ _ _ _ _ _ => none, fun _ _ => 1⟩
      ⟨some 5⟩ 0 ⟨[]⟩).1 = 0 :=
  ⟨rfl, rfl⟩

/-- C4 amended: when the engine reports an internal error from
`ia_aiq_statistics_set`, `AIQ::setStatistics` logs it and still returns
zero (success); the wrapper state is unchanged, so a subsequent
per-frame call behaves exactly as it would have without the failure. -/
theorem c4_engine_error_logged_and_dropped (eng eng2 : Engine) (a : AIQ)
    (frame frame2 : Nat) (stats stats2 : Ipu3UapiStats3a) :
    (AIQ.setStatistics eng a frame stats).1 = 0 ∧
    (AIQ.setStatistics eng a frame stats).2.1 = a ∧
    AIQ.setStatistics eng2 (AIQ.setStatistics eng a frame stats).2.1
        frame2 stats2 =
      AIQ.setStatistics eng2 a frame2 stats2 :=
  ⟨rfl, rfl, rfl⟩

/-- C5 counterexample: on a freshly constructed session (no `init`),
`setStatistics` returns 0 — success, not a defined error — and the
engine entry point is invoked with the null handle; `configure` also
returns success; and destruction issues the `ia_aiq_deinit` call even
though the handle is null. -/
theorem c5_no_state_guard_counterexample :
    (AIQ.setStatistics ⟨fun _ _ _ _ _ _ _ _ => none, fun _ _ => 0⟩
      AIQ.new 0 ⟨[]⟩).1 = 0 ∧
    (AIQ.setStatistics ⟨fun _ _ _ _ _ _ _ _ => none, fun _ _ => 0⟩
      AIQ.new 0 ⟨[]⟩).2.2.handle = none ∧
    (AIQ.configure AIQ.new).1 = 0 ∧
    (AIQ.destruct AIQ.new).handle = none :=
  ⟨rfl, rfl, rfl, rfl⟩

/-- C5 amended: `configure`, `setStatistics` and `run` return success
(0) regardless of the session state; `setStatistics` always passes the
current (possibly null) handle to the engine, with no state guard; and
destruction always issues the engine deinit call with the current
handle, with no null check. -/
theorem c5_no_guards (eng : Engine) (a : AIQ) (frame : Nat)
    (stats : Ipu3UapiStats3a)
    (encode : AicConfig → Ipu3UapiParams → Ipu3UapiParams)
    (config : AicConfig) (params : Ipu3UapiParams) :
    (AIQ.configure a).1 = 0 ∧
    (AIQ.setStatistics eng a frame stats).1 = 0 ∧
    (AIQ.setStatistics eng a frame stats).2.2.handle = a.aiq_ ∧
    (AIQ.run encode a frame config params).1 = 0 ∧
    (AIQ.destruct a).handle = a.aiq_ :=
  ⟨rfl, rfl, rfl, rfl, rfl⟩

/-- C6: the statistics input submitted to the engine by
`AIQ::setStatistics` is the value-initialized struct for every call, so
it does not depend on the contents of the supplied hardware statistics
buffer — contrary to the documented intent ("We should give the
converted statistics into the AIQ library here"). -/
theorem c6_statistics_input_is_constant (eng : Engine) (a : AIQ)
    (frame : Nat) (s1 s2 : Ipu3UapiStats3a) :
    (AIQ.setStatistics eng a frame s1).2.2.param =
      IaAiqStatisticsInputParams.zeroed ∧
    (AIQ.setStatistics eng a frame s1).2.2.param =
      (AIQ.setStatistics eng a frame s2).2.2.param :=
  ⟨rfl, rfl⟩

/-- C7: after a successful `load`, the recorded size equals the number
of bytes actually read, the view's pointer is non-null, and the bytes
reachable through the view are exactly the owned buffer (the view
aliases the owned storage; no other operation of the class mutates the
buffer afterwards). -/
theorem c7_successful_load_view (b : AIQBinaryData) (f : File)
    (h : (b.load f).1 = 0) :
    (b.load f).2.iaBinaryData_.size = f.readBytes.length ∧
    (b.load f).2.iaBinaryData_.dataIsNull = false ∧
    (b.load f).2.dataView.bytes = (b.load f).2.data_ := by
  simp only [AIQBinaryData.load] at h ⊢
  split_ifs at h ⊢ with h1 h2 h3 h4
  · norm_num [ENOENT] at h
  · norm_num [EINVAL] at h
  · norm_num [ENODATA] at h
  · norm_num [EINVAL] at h
  · push_neg at h4
    exact ⟨h4.symm, rfl, by simp [AIQBinaryData.dataView]⟩

/-- C7 witness: a concrete 3-byte file loaded in full. -/
theorem c7_successful_load_view_witness :
    (AIQBinaryData.new.load ⟨true, true, 3, [10, 20, 30]⟩).2.iaBinaryData_.size =
      ([10, 20, 30] : List Int).length ∧
    (AIQBinaryData.new.load ⟨true, true, 3, [10, 20, 30]⟩).2.iaBinaryData_.dataIsNull =
      false ∧
    (AIQBinaryData.new.load ⟨true, true, 3, [10, 20, 30]⟩).2.dataView.bytes =
      (AIQBinaryData.new.load ⟨true, true, 3, [10, 20, 30]⟩).2.data_ :=
  c7_successful_load_view AIQBinaryData.new ⟨true, true, 3, [10, 20, 30]⟩
    (by decide)

/-- C8: `AIQ::run` is deterministic — for identical tuning-decision
input (the `aic_config` handed to the encoder) and identical parameter
buffer, the result is identical, independent of the wrapper state and
of the frame number; the encoding step depends on nothing but the
tuning decision and the buffer. -/
theorem c8_run_deterministic
    (encode : AicConfig → Ipu3UapiParams → Ipu3UapiParams)
    (a1 a2 : AIQ) (frame1 frame2 : Nat) (config : AicConfig)
    (params : Ipu3UapiParams) :
    AIQ.run encode a1 frame1 config params =
      AIQ.run encode a2 frame2 config params :=
  rfl

/-- C8 witness: concrete session states and frame numbers. -/
theorem c8_run_deterministic_witness :
    AIQ.run (fun c p => ⟨c.raw ++ p.raw⟩) AIQ.new 0 ⟨[1]⟩ ⟨[2]⟩ =
      AIQ.run (fun c p => ⟨c.raw ++ p.raw⟩) ⟨some 7⟩ 9 ⟨[1]⟩ ⟨[2]⟩ :=
  c8_run_deterministic (fun c p => ⟨c.raw ++ p.raw⟩) AIQ.new ⟨some 7⟩ 0 9
    ⟨[1]⟩ ⟨[2]⟩

/-- C9 counterexample: a concrete run of `AIQ::init` performs exactly
one load attempt (the primary blob from the fixed path), not three; the
non-volatile-memory and auxiliary blobs are passed to engine creation
as default null views without any load. -/
theorem c9_single_load_attempt_counterexample :
    (AIQ.init ⟨fun _ _ _ _ _ _ _ _ => some 1, fun _ _ => 0⟩ AIQ.new
      (fun _ => ⟨true, true, 1, [3]⟩)).2.2.loadPaths.length = 1 ∧
    (AIQ.init ⟨fun _ _ _ _ _ _ _ _ => some 1, fun _ _ => 0⟩ AIQ.new
      (fun _ => ⟨true, true, 1, [3]⟩)).2.2.loadPaths = [aiqbPath] ∧
    (AIQ.init ⟨fun _ _ _ _ _ _ _ _ => some 1, fun _ _ => 0⟩ AIQ.new
      (fun _ => ⟨true, true, 1, [3]⟩)).2.2.engineCall.nvmData = nullView ∧
    (AIQ.init ⟨fun _ _ _ _ _ _ _ _ => some 1, fun _ _ => 0⟩ AIQ.new
      (fun _ => ⟨true, true, 1, [3]⟩)).2.2.engineCall.aiqdData = nullView :=
  ⟨rfl, rfl, rfl, rfl⟩

/-- C9 amended: every execution of `init` attempts to load exactly one
calibration blob (the primary, from the fixed path), leaves the nvm and
aiqd blobs as default null views, and calls the engine creation entry
point with the three views, maximum statistics width 1920, height 1080,
4 concurrent statistics instances, and two null context pointers. -/
theorem c9_init_call_shape (eng : Engine) (a : AIQ) (fs : String → File) :
    (AIQ.init eng a fs).2.2.loadPaths = [aiqbPath] ∧
    (AIQ.init eng a fs).2.2.engineCall =
      ⟨(AIQBinaryData.new.load (fs aiqbPath)).2.dataView, nullView,
        nullView, 1920, 1080, 4, none, none⟩ := by
  simp only [AIQ.init]
  split <;> exact ⟨rfl, rfl⟩

/-- C10: the view exposed through `AIQBinaryData::data()` is
`{data = null, size = 0}` immediately after construction, and every
failing call to `load` leaves the view's pointer flag and size exactly
as they were before the call — only a fully successful load writes
them. -/
theorem c10_view_unchanged_on_failure (b : AIQBinaryData) (f : File)
    (h : (b.load f).1 ≠ 0) :
    AIQBinaryData.new.iaBinaryData_ = ⟨true, 0⟩ ∧
    (b.load f).2.iaBinaryData_ = b.iaBinaryData_ := by
  refine ⟨rfl, ?_⟩
  simp only [AIQBinaryData.load] at h ⊢
  split_ifs at h ⊢
  · rfl
  · rfl
  · rfl
  · rfl
  · exact absurd rfl h

/-- C10 witness: a failing load on a concrete missing file. -/
theorem c10_view_unchanged_on_failure_witness :
    AIQBinaryData.new.iaBinaryData_ = ⟨true, 0⟩ ∧
    (AIQBinaryData.new.load ⟨false, true, 0, []⟩).2.iaBinaryData_ =
      AIQBinaryData.new.iaBinaryData_ :=
  c10_view_unchanged_on_failure AIQBinaryData.new ⟨false, true, 0, []⟩
    (by decide)

end Aiq
